import Mathlib

/-!
Verification of the `fun_time` attribute transformer
(`fun_time_derive/src/lib.rs`).

The transformer is a compile-time procedure: it receives the parsed
attribute arguments and the annotated function item, and it produces
either a diagnostic (a `compile_error!` token stream) or a rewritten
function definition.  We embed it shallowly:

* `When`, `Reporting`, `LogLevel`, `FunTimeArgs` mirror the argument
  types of the source, with the `log` cargo feature modelled by an
  explicit `logFeature : Bool` parameter wherever the source uses
  `#[cfg(feature = "log")]`.
* `Signature` / `ItemFn` mirror the parts of `syn::Signature` /
  `syn::ItemFn` the transformer reads, with types rendered as strings
  (the source itself manipulates them as token streams and strings).
* `fun_time` is the transformer itself; `Emission` is its result type
  (a Rust `proc_macro::TokenStream` that is either `compile_error!`
  tokens or a function definition).
* The generated body is kept as a small statement AST (`GenStmt`) that
  records exactly the statements the source splices together with
  `quote!`, and `runEmitted` gives it an operational semantics so that
  the runtime behaviour of the generated wrapper (notifications,
  timing, pass-through of the return value) can be proved.  Original
  function bodies are modelled by the little language `Block`, which
  has printing, parameter mutation/consumption and an early `return`,
  the features the source documentation and tests exercise.
* Rust's `format!` interpolation of `\x7bname\x7d` and `\x7bname:#?\x7d`
  (an external collaborator of the generated code) is modelled by
  `materialize`; each runtime value carries its default and alternate
  renderings.
-/

namespace FunTime

/-- Determines when to collect execution time information
(source: `enum When`). -/
inductive When
  /-- Always collect timing information. -/
  | always
  /-- Only collect timing information if `cfg!(debug_assertions)` is true. -/
  | debug
deriving DecidableEq, Repr

/-- Determines how to report the captured execution time information
(source: `enum Reporting`).  The `log` constructor exists in the source
only under the `log` cargo feature; here it is always present and the
feature gates which values the parser can produce. -/
inductive Reporting
  | println
  | log
deriving DecidableEq, Repr

/-- Severity levels of the `log` crate (source: `log_level::Level`,
wrapping `log::Level`; present only under the `log` feature). -/
inductive LogLevel
  | trace
  | debug
  | info
  | warn
  | error
deriving DecidableEq, Repr

/-- Parse the `when` argument from a string literal
(source: `When::from_lit`). -/
def When.from_lit (s : String) : Except String When :=
  if s = "always" then .ok .always
  else if s = "debug" then .ok .debug
  else .error ("Unsupported value for `when` attribute: " ++ s ++
    ". Use one of: always, debug")

/-- Parse the `reporting` argument from a string literal
(source: `Reporting::from_lit`).  The `"log"` match arm exists only when
the `log` feature is enabled; the catch-all error message is unconditional. -/
def Reporting.from_lit (logFeature : Bool) (s : String) : Except String Reporting :=
  if s = "println" then .ok .println
  else if logFeature && s == "log" then .ok .log
  else .error ("Unsupported value for `reporting` attribute: " ++ s ++
    ". Use one of: println, (only with log feature) log")

/-- Parse the `level` argument from a string literal
(source: `log_level::Level::from_lit`, delegating to
`log::Level::from_str`, which matches the level names
case-insensitively). -/
def LogLevel.from_lit (s : String) : Except String LogLevel :=
  if s.toLower = "trace" then .ok .trace
  else if s.toLower = "debug" then .ok .debug
  else if s.toLower = "info" then .ok .info
  else if s.toLower = "warn" then .ok .warn
  else if s.toLower = "error" then .ok .error
  else .error ("Unsupported value for `level` attribute: " ++ s ++
    ". Use one of: trace, debug, info, warn, error")

/-- The parsed attribute arguments (source: `struct FunTimeArgs`).
The `level` field exists in the source only under the `log` feature;
here it always carries a value and is simply unused without the
feature. -/
structure FunTimeArgs where
  message : Option String
  when : When
  give_back : Bool
  reporting : Reporting
  level : LogLevel
deriving DecidableEq, Repr

/-- The fully-defaulted argument record before any attribute token is
processed: all `#[darling(default)]` fields take their `Default`
values.  `Reporting::default` is `Log` when the `log` feature is on and
`Println` otherwise. -/
def initArgs (logFeature : Bool) : FunTimeArgs :=
  { message := none
    when := .always
    give_back := false
    reporting := if logFeature then .log else .println
    level := .info }

/-- A raw attribute value at the attribute site: a bare flag
(`give_back`) or a string literal (`when = "debug"`). -/
inductive RawValue
  | flagOnly
  | strLit (s : String)
deriving DecidableEq, Repr

/-- One raw `key = value` (or bare `key`) token of the attribute
invocation. -/
structure RawArg where
  key : String
  value : RawValue
deriving DecidableEq, Repr

/-- Modelled from the darling-derived `FunTimeArgs::from_list` parser:
each recognized key updates the record (string-valued enum options go
through the `from_lit` functions named in the `and_then` attributes),
an unknown key yields an "Unknown field" diagnostic, and a value of the
wrong kind for a recognized key yields a format diagnostic.  The
`level` field does not exist without the `log` feature, so `level` is
then an unknown field. -/
def parse_args (logFeature : Bool) : List RawArg → FunTimeArgs → Except String FunTimeArgs
  | [], acc => .ok acc
  | a :: rest, acc =>
    match a.key, a.value with
    | "message", .strLit s => parse_args logFeature rest { acc with message := some s }
    | "when", .strLit s =>
      match When.from_lit s with
      | .ok w => parse_args logFeature rest { acc with when := w }
      | .error e => .error e
    | "give_back", .flagOnly => parse_args logFeature rest { acc with give_back := true }
    | "reporting", .strLit s =>
      match Reporting.from_lit logFeature s with
      | .ok r => parse_args logFeature rest { acc with reporting := r }
      | .error e => .error e
    | "level", .strLit s =>
      if logFeature then
        match LogLevel.from_lit s with
        | .ok l => parse_args logFeature rest { acc with level := l }
        | .error e => .error e
      else .error ("Unknown field: `level`")
    | k, v =>
      if k = "message" || k = "when" || k = "reporting" ||
         (logFeature && k == "level") then
        .error ("Unexpected meta-item format for `" ++ k ++ "`")
      else if k = "give_back" then
        match v with
        | .strLit _ => .error ("Unexpected meta-item format for `give_back`")
        | .flagOnly => .error ("Unexpected meta-item format for `give_back`")
      else
        .error ("Unknown field: `" ++ k ++ "`")

/-- A runtime value of the instrumented program.  Rust values are
abstracted by the two textual renderings the generated code can ask
for: `display` is the default rendering a plain `\x7bname\x7d` produces,
`displayAlt` the alternate rendering of `\x7bname:#?\x7d`. -/
structure RValue where
  display : String
  displayAlt : String
deriving DecidableEq, Repr

/-- The parameter environment of a call: parameter name to current
value.  A moved-out (consumed) parameter is removed from the list. -/
abbrev Env := List (String × RValue)

/-- Look a parameter up in the environment. -/
def envLookup (env : Env) (n : String) : RValue :=
  match env with
  | [] => ⟨"", ""⟩
  | (k, v) :: rest => if k = n then v else envLookup rest n

/-- Update a parameter binding. -/
def envSet (env : Env) (n : String) (v : RValue) : Env :=
  match env with
  | [] => [(n, v)]
  | (k, w) :: rest => if k = n then (k, v) :: rest else (k, w) :: envSet rest n v

/-- Remove a parameter binding (the body took ownership of it). -/
def envDrop (env : Env) (n : String) : Env :=
  match env with
  | [] => []
  | (k, w) :: rest => if k = n then rest else (k, w) :: envDrop rest n

/-- A primitive operation of an original function body. -/
inductive BOp
  /-- Print a line (the body's own output, distinct from the wrapper's
  notifications). -/
  | printLine (s : String)
  /-- Mutate a parameter (for example through a `&mut self` receiver). -/
  | setParam (n : String) (v : RValue)
  /-- Take ownership of a parameter: it is gone afterwards. -/
  | dropParam (n : String)
  /-- An early `return v` inside the body. -/
  | earlyReturn (v : RValue)
deriving DecidableEq, Repr

/-- An original function body (`syn::Block` in the source, which treats
it as an opaque token tree; we give it just enough structure to state
the behavioural claims): a statement list, the value of the trailing
expression when no early return fires, and the wall-clock time the body
consumes. -/
structure Block where
  stmts : List BOp
  tail : RValue
  duration : Nat
deriving DecidableEq, Repr

/-- Run the statements of a body: `some v` means an early return with
value `v` fired; also returns the final environment and the lines the
body printed. -/
def runOps : List BOp → Env → Option RValue × Env × List String
  | [], env => (none, env, [])
  | .printLine s :: rest, env =>
    let r := runOps rest env
    (r.1, r.2.1, s :: r.2.2)
  | .setParam n v :: rest, env => runOps rest (envSet env n v)
  | .dropParam n :: rest, env => runOps rest (envDrop env n)
  | .earlyReturn v :: _, env => (some v, env, [])

/-- Run a body to completion: the value it produces (early return or
trailing expression), the final environment, and its printed lines.
This is exactly what invoking the zero-argument closure
`(|| \x7b #block \x7d)()` built by the source delivers. -/
def runBlock (b : Block) (env : Env) : RValue × Env × List String :=
  match runOps b.stmts env with
  | (some v, e, o) => (v, e, o)
  | (none, e, o) => (b.tail, e, o)

/-- The parts of `syn::Signature` the transformer reads or re-emits.
`output = none` models `ReturnType::Default` (no `->` clause, unit),
`output = some ty` models `ReturnType::Type` with `ty` the rendered
type.  The qualifier fields (`isConst`, `isAsync`, `isUnsafe`, `abi`)
model `constness`, `asyncness`, `unsafety` and the extern ABI of
`syn::Signature`. -/
structure Signature where
  isConst : Bool
  isAsync : Bool
  isUnsafe : Bool
  abi : Option String
  ident : String
  generics : List String
  whereClause : Option String
  inputs : List (String × String)
  output : Option String
deriving DecidableEq, Repr

/-- The annotated function item (`syn::ItemFn`). -/
structure ItemFn where
  vis : String
  sig : Signature
  block : Block
deriving DecidableEq, Repr

/-- One statement of the generated wrapper body, mirroring the
fragments the source assembles with `quote!`. -/
inductive GenStmt
  /-- The statement `let super_secret_variable_that_does_not_clash_start = std::time::Instant::now();`. -/
  | letStartInstant
  /-- The statement `let return_value: TY = (|| \x7b BLOCK \x7d)();` — the original
  body wrapped in an immediately invoked zero-argument closure, bound
  with the original return type (or `()`). -/
  | letReturnValue (ty : String) (b : Block)
  /-- The statement `let elapsed = super_secret_variable_that_does_not_clash_start.elapsed();`. -/
  | letElapsed
  /-- The statement `let super_secret_variable_that_does_not_clash_message = format!(TEMPLATE);`. -/
  | letMessage (template : String)
  /-- The start notification (`println!` or the chosen `log` macro). -/
  | notifyStart (r : Reporting) (lvl : LogLevel)
  /-- The done notification: message, `": Done in "`, elapsed time. -/
  | notifyDone (r : Reporting) (lvl : LogLevel)
  /-- The trailing expression `(return_value, elapsed)`. -/
  | exprPair
  /-- The trailing expression `return_value`. -/
  | exprReturnValue
deriving DecidableEq, Repr

/-- The body of an emitted function: either the original body re-emitted
verbatim (the `when = "debug"` bypass), or a generated statement list. -/
inductive GenBody
  | originalBody (b : Block)
  | generated (stmts : List GenStmt)
deriving DecidableEq, Repr

/-- The emitted function definition: the signature parts written out by
the `quote!` invocations, plus the body. -/
structure EmittedFn where
  vis : String
  isConst : Bool
  isAsync : Bool
  isUnsafe : Bool
  abi : Option String
  ident : String
  generics : List String
  whereClause : Option String
  inputs : List (String × String)
  output : Option String
  body : GenBody
deriving DecidableEq, Repr

/-- The result of one invocation of the attribute transformer: the
returned token stream is either `compile_error!` tokens (a diagnostic)
or a function definition. -/
inductive Emission
  | diagnostic (msg : String)
  | emit (f : EmittedFn)
deriving DecidableEq, Repr

/-- Diagnostic text of the `message`/`give_back` exclusivity check. -/
def msgMessageGiveBack : String :=
  "the `message` and `give_back` attributes can not be used together!"

/-- Diagnostic text of the `give_back`/`when = "debug"` exclusivity check. -/
def msgGiveBackWhenDebug : String :=
  "the `give_back` and `when` attribute with \"debug\" can not be used together! It would result in different return types"

/-- The three statements of the source's `wrapped_block` quote: start
instant, immediately invoked closure bound to `return_value` with the
original return type, elapsed time. -/
def wrapped_block (return_type : String) (b : Block) : List GenStmt :=
  [.letStartInstant, .letReturnValue return_type b, .letElapsed]

/-- Re-emission of the original item (`quote! \x7b #item_fn \x7d`):
everything is carried over verbatim. -/
def passthroughEmit (item_fn : ItemFn) : EmittedFn :=
  { vis := item_fn.vis
    isConst := item_fn.sig.isConst
    isAsync := item_fn.sig.isAsync
    isUnsafe := item_fn.sig.isUnsafe
    abi := item_fn.sig.abi
    ident := item_fn.sig.ident
    generics := item_fn.sig.generics
    whereClause := item_fn.sig.whereClause
    inputs := item_fn.sig.inputs
    output := item_fn.sig.output
    body := .originalBody item_fn.block }

/-- The transformation proper (the code after the `when` dispatch in
`fun_time`): computes `return_type`, builds `wrapped_block`, and then
either the `give_back` emission (signature rebuilt from visibility,
ident, generics, inputs, modified output and where-clause only; body
ends in `(return_value, elapsed)`) or the reporting emission (full
original signature reused; body is message statement, start
notification, wrapped block, done notification, `return_value`). -/
def transform (args : FunTimeArgs) (item_fn : ItemFn) : EmittedFn :=
  let return_type : String :=
    match item_fn.sig.output with
    | some ty => ty
    | none => "()"
  if args.give_back then
    let output_with_duration : Option String :=
      match item_fn.sig.output with
      | none => some "std::time::Duration"
      | some ty => some ("(" ++ ty ++ ", std::time::Duration)")
    { vis := item_fn.vis
      isConst := false
      isAsync := false
      isUnsafe := false
      abi := none
      ident := item_fn.sig.ident
      generics := item_fn.sig.generics
      whereClause := item_fn.sig.whereClause
      inputs := item_fn.sig.inputs
      output := output_with_duration
      body := .generated (wrapped_block return_type item_fn.block ++ [.exprPair]) }
  else
    let message := args.message.getD ""
    { vis := item_fn.vis
      isConst := item_fn.sig.isConst
      isAsync := item_fn.sig.isAsync
      isUnsafe := item_fn.sig.isUnsafe
      abi := item_fn.sig.abi
      ident := item_fn.sig.ident
      generics := item_fn.sig.generics
      whereClause := item_fn.sig.whereClause
      inputs := item_fn.sig.inputs
      output := item_fn.sig.output
      body := .generated
        ([.letMessage message, .notifyStart args.reporting args.level] ++
         wrapped_block return_type item_fn.block ++
         [.notifyDone args.reporting args.level, .exprReturnValue]) }

/-- The attribute transformer `fun_time` on already-parsed arguments:
first the `message`/`give_back` exclusivity check, then the `when`
dispatch (`When::Debug if give_back` diagnostic, `When::Debug` under a
non-debug profile re-emits the item verbatim), then the transformation.
`debugAssertions` models `cfg!(debug_assertions)`. -/
def fun_time (debugAssertions : Bool) (args : FunTimeArgs) (item_fn : ItemFn) : Emission :=
  if args.message.isSome && args.give_back then
    .diagnostic msgMessageGiveBack
  else
    match args.when with
    | .debug =>
      if args.give_back then .diagnostic msgGiveBackWhenDebug
      else if !debugAssertions then .emit (passthroughEmit item_fn)
      else .emit (transform args item_fn)
    | .always => .emit (transform args item_fn)

/-- The whole attribute entry point: parse the raw arguments with the
darling-derived parser (a parse error becomes `error.write_errors()`,
i.e. diagnostic tokens), then run `fun_time`. -/
def fun_time_entry (debugAssertions logFeature : Bool)
    (raw : List RawArg) (item_fn : ItemFn) : Emission :=
  match parse_args logFeature raw (initArgs logFeature) with
  | .ok args => fun_time debugAssertions args item_fn
  | .error e => .diagnostic e

/-- The opening brace character, written by code point to keep format
templates readable as data. -/
def lbrace : Char := Char.ofNat 123

/-- The closing brace character. -/
def rbrace : Char := Char.ofNat 125

/-- A fragment of a parsed format template: a literal character, a
default-rendering interpolation, or an alternate-rendering
interpolation. -/
inductive Frag
  | lit (c : Char)
  | arg (n : String)
  | argAlt (n : String)
deriving DecidableEq, Repr

/-- Classify the inside of a brace pair: `name` is a default-rendering
interpolation, `name:#?` (any spec containing `#`) the alternate
rendering.  Other format specs (such as plain `:?`) are collapsed onto
the default rendering, matching the granularity at which `RValue`
abstracts a Rust value. -/
def mkArgFrag (inside : List Char) : Frag :=
  let name := inside.takeWhile (fun c => c != ':')
  let spec := inside.dropWhile (fun c => c != ':')
  if spec.contains '#' then .argAlt (String.mk name)
  else .arg (String.mk name)

/-- Parse a format template character by character.  Modelled from the
spec: the message is "a small format string where `\x7bname\x7d`
substitutes the current value of parameter `name` using its default
textual rendering, and `\x7bname:#?\x7d` substitutes it using an
alternate rendering" — the interpolation itself is performed by Rust's
`format!`, an external collaborator of the generated code.  The second
argument accumulates the inside of an open brace pair (in reverse). -/
def parseFmtAux : List Char → Option (List Char) → List Frag
  | [], none => []
  | [], some acc => [mkArgFrag acc.reverse]
  | c :: rest, none =>
    if c = lbrace then parseFmtAux rest (some [])
    else .lit c :: parseFmtAux rest none
  | c :: rest, some acc =>
    if c = rbrace then mkArgFrag acc.reverse :: parseFmtAux rest none
    else parseFmtAux rest (some (c :: acc))

/-- Render one fragment against a parameter environment. -/
def renderFrag (env : Env) : Frag → String
  | .lit c => String.mk [c]
  | .arg n => (envLookup env n).display
  | .argAlt n => (envLookup env n).displayAlt

/-- Materialize a message template against a parameter environment:
what `format!(TEMPLATE)` evaluates to with the parameters in scope. -/
def materialize (template : String) (env : Env) : String :=
  ((parseFmtAux template.data none).map (renderFrag env)).foldl (· ++ ·) ""

/-- The runtime state of one call of an emitted function. -/
structure RunState where
  /-- Current bindings of the function's parameters. -/
  env : Env
  /-- Current wall-clock time. -/
  time : Nat
  /-- Value of the start-instant local. -/
  startTime : Nat
  /-- Value of the materialized-message local. -/
  message : String
  /-- Value of the `return_value` local. -/
  returnValue : RValue
  /-- Value of the `elapsed` local. -/
  elapsed : Nat
  /-- Notification lines emitted by the wrapper itself. -/
  notes : List String
  /-- Lines printed by the original body. -/
  bodyOut : List String
  /-- How many times the inner closure has been invoked. -/
  bodyCalls : Nat
deriving DecidableEq, Repr

/-- The initial state of a call: parameters bound, clock at `t0`. -/
def initState (env : Env) (t0 : Nat) : RunState :=
  { env := env
    time := t0
    startTime := 0
    message := ""
    returnValue := ⟨"", ""⟩
    elapsed := 0
    notes := []
    bodyOut := []
    bodyCalls := 0 }

/-- Execute one generated statement.  `fmt` is the duration formatter
(`\x7b:.2?\x7d`, the bounded-precision Debug rendering of
`std::time::Duration` — an external collaborator, so it is a parameter
of the semantics). -/
def execStmt (fmt : Nat → String) (s : GenStmt) (st : RunState) : RunState :=
  match s with
  | .letStartInstant => { st with startTime := st.time }
  | .letReturnValue _ b =>
    { st with
      env := (runBlock b st.env).2.1
      time := st.time + b.duration
      returnValue := (runBlock b st.env).1
      bodyOut := st.bodyOut ++ (runBlock b st.env).2.2
      bodyCalls := st.bodyCalls + 1 }
  | .letElapsed => { st with elapsed := st.time - st.startTime }
  | .letMessage template => { st with message := materialize template st.env }
  | .notifyStart _ _ => { st with notes := st.notes ++ [st.message] }
  | .notifyDone _ _ =>
    { st with notes := st.notes ++ [st.message ++ ": Done in " ++ fmt st.elapsed] }
  | .exprPair => st
  | .exprReturnValue => st

/-- Execute a generated statement list. -/
def execStmts (fmt : Nat → String) : List GenStmt → RunState → RunState
  | [], st => st
  | s :: rest, st => execStmts fmt rest (execStmt fmt s st)

/-- What a call of the emitted function returns to its caller. -/
inductive FnResult
  /-- The plain value (reporting mode, and the bypass). -/
  | plain (v : RValue)
  /-- The pair `(return_value, elapsed)` of give_back mode. -/
  | withDuration (v : RValue) (d : Nat)
  /-- No trailing expression. -/
  | unitResult
deriving DecidableEq, Repr

/-- The value delivered by the trailing expression of a generated body. -/
def resultOf (stmts : List GenStmt) (st : RunState) : FnResult :=
  match stmts.getLast? with
  | some .exprPair => .withDuration st.returnValue st.elapsed
  | some .exprReturnValue => .plain st.returnValue
  | _ => .unitResult

/-- Run one call of an emitted function: parameters bound to `env`,
clock starting at `t0`.  Returns the caller-visible result and the
final state (notifications, body output, final parameter bindings). -/
def runEmitted (fmt : Nat → String) (F : EmittedFn) (env : Env) (t0 : Nat) :
    FnResult × RunState :=
  match F.body with
  | .originalBody b =>
    (.plain (runBlock b env).1,
      { initState env t0 with
        env := (runBlock b env).2.1
        time := t0 + b.duration
        returnValue := (runBlock b env).1
        bodyOut := (runBlock b env).2.2
        bodyCalls := 1 })
  | .generated stmts =>
    let st := execStmts fmt stmts (initState env t0)
    (resultOf stmts st, st)


/-- Whether an emission is a diagnostic (a `compile_error!` token
stream) rather than a function definition. -/
def Emission.isDiagnostic : Emission → Bool
  | .diagnostic _ => true
  | .emit _ => false

/-- Whether a generated statement is the closure-invocation binding
`let return_value: TY = (|| \x7b BLOCK \x7d)();`. -/
def isLetReturn : GenStmt → Bool
  | .letReturnValue _ _ => true
  | _ => false

/-- Whether a generated statement is the start-instant capture. -/
def isLetStart : GenStmt → Bool
  | .letStartInstant => true
  | _ => false

/-- Whether a generated statement is the elapsed-time capture. -/
def isLetElapsed : GenStmt → Bool
  | .letElapsed => true
  | _ => false

/-- The return type the wrapper binds `return_value` with: the original
return type, or `()` when the function has no `->` clause. -/
def originalOrUnit (item_fn : ItemFn) : String :=
  match item_fn.sig.output with
  | some ty => ty
  | none => "()"

/-- The concrete input exhibiting the C1 divergence: `give_back` set,
no other options, on a function with no declared return type. -/
def c1Args : FunTimeArgs := ⟨none, .always, true, .println, .info⟩

/-- A function with no `->` clause (unit return) and an empty body. -/
def c1Fn : ItemFn :=
  ⟨"pub", ⟨false, false, false, none, "do_nothing", [], none, [], none⟩,
    ⟨[], ⟨"()", "()"⟩, 5⟩⟩

/-- C1: the claim says that with `give_back` set the emitted return
type is a 2-element pair `(original_return_type_or_unit, duration)`
also when the original function has no declared return type.  The code
diverges there: for `ReturnType::Default` it emits the return type
`std::time::Duration` alone, while the generated body still ends in the
pair expression `(return_value, elapsed)` and a run delivers a pair —
so the emitted definition is internally inconsistent (ill-typed
generated code), contradicting the macro's own doc comment, which
promises a tuple of the original return value and the elapsed time. -/
theorem c1_give_back_unit_return_mismatch :
    fun_time true c1Args c1Fn = .emit (transform c1Args c1Fn) ∧
    (transform c1Args c1Fn).output = some "std::time::Duration" ∧
    (transform c1Args c1Fn).output ≠ some "((), std::time::Duration)" ∧
    (transform c1Args c1Fn).body =
      .generated [.letStartInstant, .letReturnValue "()" c1Fn.block,
        .letElapsed, .exprPair] ∧
    (runEmitted (fun _ => "5ns") (transform c1Args c1Fn) [] 0).1 =
      .withDuration ⟨"()", "()"⟩ 5 := by
  refine ⟨rfl, rfl, by decide, rfl, by decide⟩

/-- C2 counterexample: the claim says the reporting option accepts the
value `print`; the parser rejects it (with either feature setting) — the
accepted literal is `println`. -/
theorem c2_print_rejected :
    Reporting.from_lit true "print" =
      .error "Unsupported value for `reporting` attribute: print. Use one of: println, (only with log feature) log" ∧
    Reporting.from_lit false "print" =
      .error "Unsupported value for `reporting` attribute: print. Use one of: println, (only with log feature) log" :=
  ⟨rfl, rfl⟩

/-- C2 (amended): the reporting option accepts exactly `println`, plus
`log` when the log feature is enabled; any other value produces a
diagnostic listing the valid literals (`println`, `log`). -/
theorem c2_reporting_closed_set (f : Bool) (s : String)
    (h1 : s ≠ "println") (h2 : ¬(f = true ∧ s = "log")) :
    Reporting.from_lit f s =
      .error ("Unsupported value for `reporting` attribute: " ++ s ++
        ". Use one of: println, (only with log feature) log") ∧
    Reporting.from_lit f "println" = .ok .println ∧
    (f = true → Reporting.from_lit f "log" = .ok .log) := by
  refine ⟨?_, ?_, ?_⟩
  · unfold Reporting.from_lit
    rw [if_neg h1, if_neg]
    simp only [Bool.and_eq_true, beq_iff_eq]
    exact h2
  · simp [Reporting.from_lit]
  · intro hf
    simp [Reporting.from_lit, hf]

/-- Witness for C2: instantiated at the unsupported literal `print`
with the log feature enabled. -/
theorem c2_reporting_closed_set_witness :
    Reporting.from_lit true "print" =
      .error ("Unsupported value for `reporting` attribute: " ++ "print" ++
        ". Use one of: println, (only with log feature) log") ∧
    Reporting.from_lit true "println" = .ok .println ∧
    (true = true → Reporting.from_lit true "log" = .ok .log) :=
  c2_reporting_closed_set true "print" (by decide) (by decide)

/-- C3: for every configuration with `give_back` set and
`when = "debug"`, the transformer produces a diagnostic, for every
build profile: the `When::Debug if args.give_back` arm precedes the
profile-bypass arm, so `cfg!(debug_assertions) = false` does not
suppress it.  (When a message is also present, the earlier
message/give_back rule produces the diagnostic instead — still a
diagnostic, never an emitted function.) -/
theorem c3_give_back_when_debug (dbg : Bool) (args : FunTimeArgs) (item_fn : ItemFn)
    (hgb : args.give_back = true) (hw : args.when = .debug) :
    (fun_time dbg args item_fn).isDiagnostic = true := by
  cases hm : args.message.isSome <;>
    simp [fun_time, hgb, hw, hm, Emission.isDiagnostic]

/-- Witness for C3: `give_back` with `when = "debug"` under a non-debug
build profile (`debugAssertions = false`) is still rejected. -/
theorem c3_give_back_when_debug_witness :
    (fun_time false ⟨none, .debug, true, .println, .info⟩ c1Fn).isDiagnostic = true :=
  c3_give_back_when_debug false ⟨none, .debug, true, .println, .info⟩ c1Fn rfl rfl

/-- C4: for every configuration with a message present and `give_back`
set, the transformer produces exactly the message/give_back diagnostic —
this check comes first in the source, before the `when` dispatch, so
even `when = "debug"` inputs get this diagnostic — and no function
definition is emitted. -/
theorem c4_message_give_back_first (dbg : Bool) (args : FunTimeArgs) (item_fn : ItemFn)
    (hm : args.message.isSome = true) (hgb : args.give_back = true) :
    fun_time dbg args item_fn = .diagnostic msgMessageGiveBack ∧
    (fun_time dbg args item_fn).isDiagnostic = true := by
  unfold fun_time
  rw [hm, hgb]
  exact ⟨rfl, rfl⟩

/-- Witness for C4: a message together with `give_back` and
`when = "debug"` yields the message/give_back diagnostic (showing that
rule fires before the give_back/when rule). -/
theorem c4_message_give_back_first_witness :
    fun_time false ⟨some "hello", .debug, true, .println, .info⟩ c1Fn =
      .diagnostic msgMessageGiveBack ∧
    (fun_time false ⟨some "hello", .debug, true, .println, .info⟩ c1Fn).isDiagnostic = true :=
  c4_message_give_back_first false ⟨some "hello", .debug, true, .println, .info⟩ c1Fn rfl rfl

/-- C5: for every configuration with `when = "debug"` and `give_back`
unset, under a non-debug build profile (`cfg!(debug_assertions)` false)
the original function is re-emitted verbatim: every signature component
and the body are those of the input item, and a call of the re-emitted
function produces no notifications and returns the original body's
value. -/
theorem c5_bypass_verbatim (args : FunTimeArgs) (item_fn : ItemFn)
    (fmt : Nat → String) (env : Env) (t0 : Nat)
    (hw : args.when = .debug) (hgb : args.give_back = false) :
    fun_time false args item_fn = .emit (passthroughEmit item_fn) ∧
    (passthroughEmit item_fn).vis = item_fn.vis ∧
    (passthroughEmit item_fn).isConst = item_fn.sig.isConst ∧
    (passthroughEmit item_fn).isAsync = item_fn.sig.isAsync ∧
    (passthroughEmit item_fn).isUnsafe = item_fn.sig.isUnsafe ∧
    (passthroughEmit item_fn).abi = item_fn.sig.abi ∧
    (passthroughEmit item_fn).ident = item_fn.sig.ident ∧
    (passthroughEmit item_fn).generics = item_fn.sig.generics ∧
    (passthroughEmit item_fn).whereClause = item_fn.sig.whereClause ∧
    (passthroughEmit item_fn).inputs = item_fn.sig.inputs ∧
    (passthroughEmit item_fn).output = item_fn.sig.output ∧
    (passthroughEmit item_fn).body = .originalBody item_fn.block ∧
    (runEmitted fmt (passthroughEmit item_fn) env t0).2.notes = [] ∧
    (runEmitted fmt (passthroughEmit item_fn) env t0).1 =
      .plain (runBlock item_fn.block env).1 := by
  refine ⟨?_, rfl, rfl, rfl, rfl, rfl, rfl, rfl, rfl, rfl, rfl, rfl, ?_, ?_⟩
  · simp [fun_time, hw, hgb]
  · simp [runEmitted, passthroughEmit, initState]
  · simp [runEmitted, passthroughEmit]

/-- Witness for C5: a concrete `when = "debug"` item under a non-debug
profile is passed through unchanged and a call emits no notifications. -/
theorem c5_bypass_verbatim_witness :
    fun_time false ⟨some "m", .debug, false, .println, .info⟩ c1Fn =
      .emit (passthroughEmit c1Fn) ∧
    (runEmitted (fun _ => "") (passthroughEmit c1Fn) [] 0).2.notes = [] := by
  have h := c5_bypass_verbatim ⟨some "m", .debug, false, .println, .info⟩ c1Fn
    (fun _ => "") [] 0 rfl rfl
  exact ⟨h.1, h.2.2.2.2.2.2.2.2.2.2.2.2.1⟩

/-- Scanning to a closing brace collects the accumulated inside of the
interpolation into one fragment. -/
theorem parseFmtAux_close (cs : List Char) (acc : List Char) (h : rbrace ∉ cs) :
    parseFmtAux (cs ++ [rbrace]) (some acc) = [mkArgFrag (acc.reverse ++ cs)] := by
  induction cs generalizing acc with
  | nil => simp [parseFmtAux]
  | cons c cs ih =>
    have hc : ¬(c = rbrace) := fun e => h (by simp [e])
    have h' : rbrace ∉ cs := fun hm => h (by simp [hm])
    simp [parseFmtAux, hc, ih (c :: acc) h', List.append_assoc]

/-- A list without a colon is taken whole by the name scan. -/
theorem takeWhile_ne_colon (cs : List Char) (h : (':') ∉ cs) :
    cs.takeWhile (fun c => c != ':') = cs := by
  induction cs with
  | nil => rfl
  | cons c cs ih =>
    have hc : (c != ':') = true := by
      simp only [bne_iff_ne, ne_eq]
      exact fun e => h (by simp [e])
    simp [List.takeWhile_cons, hc, ih (fun hm => h (by simp [hm]))]

/-- A list without a colon leaves nothing for the spec scan. -/
theorem dropWhile_ne_colon (cs : List Char) (h : (':') ∉ cs) :
    cs.dropWhile (fun c => c != ':') = [] := by
  induction cs with
  | nil => rfl
  | cons c cs ih =>
    have hc : (c != ':') = true := by
      simp only [bne_iff_ne, ne_eq]
      exact fun e => h (by simp [e])
    simp [List.dropWhile_cons, hc, ih (fun hm => h (by simp [hm]))]

/-- The name scan of `name:#?` stops at the colon. -/
theorem takeWhile_ne_colon_append (cs : List Char) (h : (':') ∉ cs) :
    (cs ++ [':', '#', '?']).takeWhile (fun c => c != ':') = cs := by
  induction cs with
  | nil => rfl
  | cons c cs ih =>
    have hc : (c != ':') = true := by
      simp only [bne_iff_ne, ne_eq]
      exact fun e => h (by simp [e])
    simp [List.takeWhile_cons, hc, ih (fun hm => h (by simp [hm]))]

/-- The spec scan of `name:#?` returns the `:#?` suffix. -/
theorem dropWhile_ne_colon_append (cs : List Char) (h : (':') ∉ cs) :
    (cs ++ [':', '#', '?']).dropWhile (fun c => c != ':') = [':', '#', '?'] := by
  induction cs with
  | nil => rfl
  | cons c cs ih =>
    have hc : (c != ':') = true := by
      simp only [bne_iff_ne, ne_eq]
      exact fun e => h (by simp [e])
    simp [List.dropWhile_cons, hc, ih (fun hm => h (by simp [hm]))]

/-- A brace pair whose inside has no format spec is a default-rendering
interpolation of that name. -/
theorem mkArgFrag_plain (cs : List Char) (h : (':') ∉ cs) :
    mkArgFrag cs = .arg (String.mk cs) := by
  simp [mkArgFrag, takeWhile_ne_colon cs h, dropWhile_ne_colon cs h]

/-- A brace pair whose inside is `name:#?` is an alternate-rendering
interpolation of that name. -/
theorem mkArgFrag_alt (cs : List Char) (h : (':') ∉ cs) :
    mkArgFrag (cs ++ [':', '#', '?']) = .argAlt (String.mk cs) := by
  simp [mkArgFrag, takeWhile_ne_colon_append cs h, dropWhile_ne_colon_append cs h]

/-- The default-form template consisting of a single interpolation
renders the parameter's default rendering. -/
theorem materialize_arg_default (n : String) (env : Env)
    (hrb : rbrace ∉ n.data) (hcol : (':') ∉ n.data) :
    materialize (String.mk (lbrace :: n.data ++ [rbrace])) env =
      (envLookup env n).display := by
  have h1 : parseFmtAux (lbrace :: (n.data ++ [rbrace])) none =
      parseFmtAux (n.data ++ [rbrace]) (some []) := by
    simp [parseFmtAux]
  have h2 := parseFmtAux_close n.data [] hrb
  unfold materialize
  rw [show (String.mk (lbrace :: n.data ++ [rbrace])).data =
      lbrace :: (n.data ++ [rbrace]) from rfl, h1, h2]
  simp [mkArgFrag_plain n.data hcol, renderFrag]

/-- The alternate-form template consisting of a single `name:#?`
interpolation renders the parameter's alternate rendering. -/
theorem materialize_arg_alt (n : String) (env : Env)
    (hrb : rbrace ∉ n.data) (hcol : (':') ∉ n.data) :
    materialize (String.mk (lbrace :: n.data ++ [':', '#', '?', rbrace])) env =
      (envLookup env n).displayAlt := by
  have hrb' : rbrace ∉ n.data ++ [':', '#', '?'] := by
    intro hm
    rcases List.mem_append.mp hm with hx | hx
    · exact hrb hx
    · revert hx
      decide
  have h2 := parseFmtAux_close (n.data ++ [':', '#', '?']) [] hrb'
  unfold materialize
  have hdata : (String.mk (lbrace :: n.data ++ [':', '#', '?', rbrace])).data =
      lbrace :: (n.data ++ [':', '#', '?'] ++ [rbrace]) := by simp
  rw [hdata]
  have h1 : parseFmtAux (lbrace :: (n.data ++ [':', '#', '?'] ++ [rbrace])) none =
      parseFmtAux (n.data ++ [':', '#', '?'] ++ [rbrace]) (some []) := by
    simp [parseFmtAux]
  rw [h1, h2]
  simp [mkArgFrag_alt n.data hcol, renderFrag]

/-- C6: for every valid non-`give_back` configuration that is actually
transformed (i.e. not the `when = "debug"` non-debug-profile bypass), a
call of the generated function emits exactly two notifications — first
the materialized message itself, then the message followed by
`": Done in "` and the formatted elapsed duration — and returns the
original body's value unchanged. -/
theorem c6_two_notifications (dbg : Bool) (args : FunTimeArgs) (item_fn : ItemFn)
    (fmt : Nat → String) (env : Env) (t0 : Nat)
    (hgb : args.give_back = false)
    (hw : args.when = .always ∨ dbg = true) :
    fun_time dbg args item_fn = .emit (transform args item_fn) ∧
    (runEmitted fmt (transform args item_fn) env t0).2.notes =
      [materialize (args.message.getD "") env,
       materialize (args.message.getD "") env ++ ": Done in " ++
         fmt item_fn.block.duration] ∧
    (runEmitted fmt (transform args item_fn) env t0).1 =
      .plain (runBlock item_fn.block env).1 := by
  refine ⟨?_, ?_, ?_⟩
  · rcases hw with h | h
    · simp [fun_time, hgb, h]
    · cases hwn : args.when
      · simp [fun_time, hgb, hwn]
      · simp [fun_time, hgb, hwn, h]
  · simp [transform, hgb, wrapped_block, runEmitted, execStmts, execStmt,
      resultOf, initState, Nat.add_sub_cancel_left]
  · simp [transform, hgb, wrapped_block, runEmitted, execStmts, execStmt,
      resultOf, initState]

/-- Concrete inputs for the C6 witness: `reporting = "println"` with
message template `hi \x7bn\x7d` on a function with parameter `n`. -/
def c6Template : String := String.mk ['h', 'i', ' ', lbrace, 'n', rbrace]

/-- The C6 witness configuration. -/
def c6Args : FunTimeArgs := ⟨some c6Template, .always, false, .println, .info⟩

/-- The C6 witness function: one parameter `n`, returns an `i32`. -/
def c6Fn : ItemFn :=
  ⟨"", ⟨false, false, false, none, "calc", [], none, [("n", "i32")], some "i32"⟩,
    ⟨[], ⟨"7", "7"⟩, 4⟩⟩

/-- The C6 witness environment: `n = 3`. -/
def c6Env : Env := [("n", ⟨"3", "3"⟩)]

/-- Witness for C6: with message `hi \x7bn\x7d` and `n = 3` the two
notification lines are `hi 3` and `hi 3: Done in 4ns`, and the call
returns the body's value. -/
theorem c6_two_notifications_witness :
    (fun_time true c6Args c6Fn = .emit (transform c6Args c6Fn) ∧
     (runEmitted (fun d => toString d ++ "ns") (transform c6Args c6Fn) c6Env 0).2.notes =
       [materialize (c6Args.message.getD "") c6Env,
        materialize (c6Args.message.getD "") c6Env ++ ": Done in " ++
          (fun d => toString d ++ "ns") c6Fn.block.duration] ∧
     (runEmitted (fun d => toString d ++ "ns") (transform c6Args c6Fn) c6Env 0).1 =
       .plain (runBlock c6Fn.block c6Env).1) ∧
    materialize (c6Args.message.getD "") c6Env = "hi 3" ∧
    (runEmitted (fun d => toString d ++ "ns") (transform c6Args c6Fn) c6Env 0).2.notes =
      ["hi 3", "hi 3: Done in 4ns"] :=
  ⟨c6_two_notifications true c6Args c6Fn (fun d => toString d ++ "ns") c6Env 0
      rfl (Or.inl rfl),
    by decide, by decide⟩

/-- C7: in non-`give_back` transform mode the message local of the
generated wrapper is the template materialized against the function's
parameters in their pre-call state (the `format!` statement is the
first statement, before the body runs, so the result is the same for
every body — including bodies that consume or mutate parameters); a
single `\x7bname\x7d` interpolation renders the parameter's default
rendering and `\x7bname:#?\x7d` its alternate rendering; an absent
message defaults to the empty string and is accepted. -/
theorem c7_message_materialization (dbg : Bool) (args : FunTimeArgs) (item_fn : ItemFn)
    (fmt : Nat → String) (env : Env) (t0 : Nat) (n : String)
    (hgb : args.give_back = false)
    (hw : args.when = .always ∨ dbg = true)
    (hrb : rbrace ∉ n.data) (hcol : (':') ∉ n.data) :
    fun_time dbg args item_fn = .emit (transform args item_fn) ∧
    (runEmitted fmt (transform args item_fn) env t0).2.message =
      materialize (args.message.getD "") env ∧
    (args.message = none →
      (runEmitted fmt (transform args item_fn) env t0).2.message = "") ∧
    materialize (String.mk (lbrace :: n.data ++ [rbrace])) env =
      (envLookup env n).display ∧
    materialize (String.mk (lbrace :: n.data ++ [':', '#', '?', rbrace])) env =
      (envLookup env n).displayAlt := by
  have hdisp : fun_time dbg args item_fn = .emit (transform args item_fn) := by
    rcases hw with h | h
    · simp [fun_time, hgb, h]
    · cases hwn : args.when
      · simp [fun_time, hgb, hwn]
      · simp [fun_time, hgb, hwn, h]
  have hmsg : (runEmitted fmt (transform args item_fn) env t0).2.message =
      materialize (args.message.getD "") env := by
    simp [transform, hgb, wrapped_block, runEmitted, execStmts, execStmt, initState]
  refine ⟨hdisp, hmsg, ?_, materialize_arg_default n env hrb hcol,
    materialize_arg_alt n env hrb hcol⟩
  intro hnone
  rw [hmsg, hnone]
  rfl

/-- The C7 witness template `\x7bx:#?\x7d`. -/
def c7Template : String := String.mk [lbrace, 'x', ':', '#', '?', rbrace]

/-- The C7 witness configuration: alternate-rendering message. -/
def c7Args : FunTimeArgs := ⟨some c7Template, .always, false, .println, .info⟩

/-- The C7 witness function: its body takes ownership of (consumes) the
parameter `x`. -/
def c7Fn : ItemFn :=
  ⟨"", ⟨false, false, false, none, "consume_x", [], none, [("x", "Parameter")], none⟩,
    ⟨[.dropParam "x"], ⟨"()", "()"⟩, 2⟩⟩

/-- The C7 witness environment: `x` with distinct default and alternate
renderings. -/
def c7Env : Env := [("x", ⟨"name = a and value = 1", "name = a and value * 2 = 2"⟩)]

/-- Witness for C7: the body consumes `x`, yet the materialized message
is the alternate rendering of `x`'s pre-call value. -/
theorem c7_message_materialization_witness :
    (fun_time false c7Args c7Fn = .emit (transform c7Args c7Fn) ∧
     (runEmitted (fun d => toString d) (transform c7Args c7Fn) c7Env 0).2.message =
       materialize (c7Args.message.getD "") c7Env ∧
     (c7Args.message = none →
       (runEmitted (fun d => toString d) (transform c7Args c7Fn) c7Env 0).2.message = "") ∧
     materialize (String.mk (lbrace :: "x".data ++ [rbrace])) c7Env =
       (envLookup c7Env "x").display ∧
     materialize (String.mk (lbrace :: "x".data ++ [':', '#', '?', rbrace])) c7Env =
       (envLookup c7Env "x").displayAlt) ∧
    (runEmitted (fun d => toString d) (transform c7Args c7Fn) c7Env 0).2.env = [] ∧
    (runEmitted (fun d => toString d) (transform c7Args c7Fn) c7Env 0).2.message =
      "name = a and value * 2 = 2" :=
  ⟨c7_message_materialization false c7Args c7Fn (fun d => toString d) c7Env 0 "x"
      rfl (Or.inl rfl) (by decide) (by decide),
    by decide, by decide⟩

/-- The statement list of the generated wrapper body, by mode: the
`give_back` shape ends in the pair expression, the reporting shape
surrounds the wrapped block with the message/notification statements.
(`transform` produces exactly these lists; see
`c8_closure_isolation`.) -/
def genStmts (args : FunTimeArgs) (item_fn : ItemFn) : List GenStmt :=
  if args.give_back then
    wrapped_block (originalOrUnit item_fn) item_fn.block ++ [.exprPair]
  else
    [.letMessage (args.message.getD ""), .notifyStart args.reporting args.level] ++
      wrapped_block (originalOrUnit item_fn) item_fn.block ++
      [.notifyDone args.reporting args.level, .exprReturnValue]

/-- C8: every transformed (non-bypass, non-diagnostic) input produces a
generated wrapper whose statement list contains exactly one
closure-invocation binding, namely `let return_value: TY = (|| ...)()` with
`TY` the original return type (or `()`), exactly one start-instant
capture and one elapsed capture; running it invokes the original body
exactly once and binds `return_value` to whatever the body delivers —
also when the body exits through an early `return` — and the wrapper
still completes its single measurement and emits exactly one
notification pair (reporting mode) or one result pair (give_back
mode). -/
theorem c8_closure_isolation (dbg : Bool) (args : FunTimeArgs) (item_fn : ItemFn)
    (fmt : Nat → String) (env : Env) (t0 : Nat)
    (hmsg : ¬(args.message.isSome = true ∧ args.give_back = true))
    (hdgb : ¬(args.when = .debug ∧ args.give_back = true))
    (hbyp : ¬(args.when = .debug ∧ dbg = false)) :
    fun_time dbg args item_fn = .emit (transform args item_fn) ∧
    (transform args item_fn).body = .generated (genStmts args item_fn) ∧
    (genStmts args item_fn).countP isLetReturn = 1 ∧
    GenStmt.letReturnValue (originalOrUnit item_fn) item_fn.block ∈
      genStmts args item_fn ∧
    (genStmts args item_fn).countP isLetStart = 1 ∧
    (genStmts args item_fn).countP isLetElapsed = 1 ∧
    (execStmts fmt (genStmts args item_fn) (initState env t0)).bodyCalls = 1 ∧
    (execStmts fmt (genStmts args item_fn) (initState env t0)).returnValue =
      (runBlock item_fn.block env).1 ∧
    (args.give_back = true →
      (execStmts fmt (genStmts args item_fn) (initState env t0)).notes = [] ∧
      resultOf (genStmts args item_fn)
          (execStmts fmt (genStmts args item_fn) (initState env t0)) =
        .withDuration (runBlock item_fn.block env).1 item_fn.block.duration) ∧
    (args.give_back = false →
      (execStmts fmt (genStmts args item_fn) (initState env t0)).notes.length = 2 ∧
      resultOf (genStmts args item_fn)
          (execStmts fmt (genStmts args item_fn) (initState env t0)) =
        .plain (runBlock item_fn.block env).1) := by
  have hdisp : fun_time dbg args item_fn = .emit (transform args item_fn) := by
    cases hwn : args.when with
    | always =>
      have hfirst : ¬(args.message.isSome && args.give_back) = true := by
        simp only [Bool.and_eq_true]
        exact hmsg
      simp [fun_time, hwn, hfirst]
    | debug =>
      have hgb : args.give_back = false := by
        cases hgbv : args.give_back
        · rfl
        · exact absurd ⟨hwn, hgbv⟩ hdgb
      have hdbg : dbg = true := by
        cases hdv : dbg
        · exact absurd ⟨hwn, hdv⟩ hbyp
        · rfl
      simp [fun_time, hwn, hgb, hdbg]
  refine ⟨hdisp, ?_, ?_, ?_, ?_, ?_, ?_, ?_, ?_, ?_⟩ <;>
    cases hgb : args.give_back <;>
    simp [genStmts, transform, wrapped_block, originalOrUnit, hgb,
      execStmts, execStmt, initState, resultOf, isLetReturn, isLetStart,
      isLetElapsed, List.countP_cons, Nat.add_sub_cancel_left]

/-- The C8 witness function: its body hits an early `return` before a
further print statement and before its trailing expression. -/
def c8Fn : ItemFn :=
  ⟨"", ⟨false, false, false, none, "early", [], none, [], some "i32"⟩,
    ⟨[.earlyReturn ⟨"1", "1"⟩, .printLine "unreachable"], ⟨"2", "2"⟩, 3⟩⟩

/-- The C8 witness configuration: plain reporting, no message. -/
def c8Args : FunTimeArgs := ⟨none, .always, false, .println, .info⟩

/-- Witness for C8: with an early-returning body the wrapper still runs
the closure exactly once, binds `return_value` to the early-returned
value, and emits both notifications. -/
theorem c8_closure_isolation_witness :
    (fun_time true c8Args c8Fn = .emit (transform c8Args c8Fn) ∧
     (transform c8Args c8Fn).body = .generated (genStmts c8Args c8Fn) ∧
     (genStmts c8Args c8Fn).countP isLetReturn = 1 ∧
     GenStmt.letReturnValue (originalOrUnit c8Fn) c8Fn.block ∈ genStmts c8Args c8Fn ∧
     (genStmts c8Args c8Fn).countP isLetStart = 1 ∧
     (genStmts c8Args c8Fn).countP isLetElapsed = 1 ∧
     (execStmts (fun _ => "") (genStmts c8Args c8Fn) (initState [] 0)).bodyCalls = 1 ∧
     (execStmts (fun _ => "") (genStmts c8Args c8Fn) (initState [] 0)).returnValue =
       (runBlock c8Fn.block []).1 ∧
     (c8Args.give_back = true →
       (execStmts (fun _ => "") (genStmts c8Args c8Fn) (initState [] 0)).notes = [] ∧
       resultOf (genStmts c8Args c8Fn)
           (execStmts (fun _ => "") (genStmts c8Args c8Fn) (initState [] 0)) =
         .withDuration (runBlock c8Fn.block []).1 c8Fn.block.duration) ∧
     (c8Args.give_back = false →
       (execStmts (fun _ => "") (genStmts c8Args c8Fn) (initState [] 0)).notes.length = 2 ∧
       resultOf (genStmts c8Args c8Fn)
           (execStmts (fun _ => "") (genStmts c8Args c8Fn) (initState [] 0)) =
         .plain (runBlock c8Fn.block []).1)) ∧
    (runBlock c8Fn.block []).1 = ⟨"1", "1"⟩ ∧
    (execStmts (fun _ => "") (genStmts c8Args c8Fn) (initState [] 0)).bodyOut = [] :=
  ⟨c8_closure_isolation true c8Args c8Fn (fun _ => "") [] 0
      (by decide) (by decide) (by decide),
    by decide, by decide⟩

/-- C9: one invocation of the whole attribute entry point — darling
argument parsing followed by the transformer — always terminates with
exactly one result, and that result is either a diagnostic token stream
(the parse error, the message/give_back diagnostic, or the
give_back/when-debug diagnostic) or exactly one emitted function
definition (the verbatim bypass or the transformed wrapper) — never
both and never neither (`Emission` is a sum type and `fun_time_entry`
is total), and every failure is such a build-time diagnostic. -/
theorem c9_exactly_one_output (dbg logFeature : Bool) (raw : List RawArg)
    (item_fn : ItemFn) :
    (∃ e, parse_args logFeature raw (initArgs logFeature) = .error e ∧
      fun_time_entry dbg logFeature raw item_fn = .diagnostic e) ∨
    (∃ args, parse_args logFeature raw (initArgs logFeature) = .ok args ∧
      (fun_time_entry dbg logFeature raw item_fn = .diagnostic msgMessageGiveBack ∨
       fun_time_entry dbg logFeature raw item_fn = .diagnostic msgGiveBackWhenDebug ∨
       fun_time_entry dbg logFeature raw item_fn = .emit (passthroughEmit item_fn) ∨
       fun_time_entry dbg logFeature raw item_fn = .emit (transform args item_fn))) := by
  cases hp : parse_args logFeature raw (initArgs logFeature) with
  | error e => exact Or.inl ⟨e, rfl, by simp [fun_time_entry, hp]⟩
  | ok args =>
    refine Or.inr ⟨args, rfl, ?_⟩
    have hentry : fun_time_entry dbg logFeature raw item_fn = fun_time dbg args item_fn := by
      simp [fun_time_entry, hp]
    rw [hentry]
    cases hmi : (args.message.isSome && args.give_back) with
    | true => simp [fun_time, hmi]
    | false =>
      cases hwn : args.when with
      | always => simp [fun_time, hmi, hwn]
      | debug =>
        cases hgb : args.give_back with
        | true =>
          have hms : args.message.isSome = false := by
            cases h : args.message.isSome
            · rfl
            · rw [h, hgb] at hmi
              exact absurd hmi (by decide)
          simp [fun_time, hmi, hwn, hgb, hms]
        | false =>
          cases dbg with
          | false => simp [fun_time, hmi, hwn, hgb]
          | true => simp [fun_time, hmi, hwn, hgb]

/-- C10: in give_back mode the emitted definition is rebuilt from only
visibility, identifier, generic parameters, parameter list, modified
return type and where-clause — the `const`/`async`/`unsafe` qualifiers
and any extern ABI of the original signature are not carried over
(they come out as the defaults) — whereas in non-give_back mode the
full original signature, qualifiers and return type included, is
reused. -/
theorem c10_signature_qualifiers (args : FunTimeArgs) (item_fn : ItemFn) :
    (args.give_back = true →
      (transform args item_fn).isConst = false ∧
      (transform args item_fn).isAsync = false ∧
      (transform args item_fn).isUnsafe = false ∧
      (transform args item_fn).abi = none ∧
      (transform args item_fn).vis = item_fn.vis ∧
      (transform args item_fn).ident = item_fn.sig.ident ∧
      (transform args item_fn).generics = item_fn.sig.generics ∧
      (transform args item_fn).inputs = item_fn.sig.inputs ∧
      (transform args item_fn).whereClause = item_fn.sig.whereClause ∧
      (transform args item_fn).output =
        some (match item_fn.sig.output with
          | none => "std::time::Duration"
          | some ty => "(" ++ ty ++ ", std::time::Duration)")) ∧
    (args.give_back = false →
      (transform args item_fn).isConst = item_fn.sig.isConst ∧
      (transform args item_fn).isAsync = item_fn.sig.isAsync ∧
      (transform args item_fn).isUnsafe = item_fn.sig.isUnsafe ∧
      (transform args item_fn).abi = item_fn.sig.abi ∧
      (transform args item_fn).vis = item_fn.vis ∧
      (transform args item_fn).ident = item_fn.sig.ident ∧
      (transform args item_fn).generics = item_fn.sig.generics ∧
      (transform args item_fn).inputs = item_fn.sig.inputs ∧
      (transform args item_fn).whereClause = item_fn.sig.whereClause ∧
      (transform args item_fn).output = item_fn.sig.output) := by
  constructor <;> intro h
  · refine ⟨?_, ?_, ?_, ?_, ?_, ?_, ?_, ?_, ?_, ?_⟩ <;> simp [transform, h]
    cases item_fn.sig.output <;> rfl
  · refine ⟨?_, ?_, ?_, ?_, ?_, ?_, ?_, ?_, ?_, ?_⟩ <;> simp [transform, h]

/-- The C10 witness function: a `const unsafe extern "C"` signature
with a declared return type. -/
def c10Fn : ItemFn :=
  ⟨"pub", ⟨true, false, true, some "C", "qualified", ["T"], some "T: Debug",
      [("x", "T")], some "bool"⟩,
    ⟨[], ⟨"true", "true"⟩, 1⟩⟩

/-- Witness for C10: on a `const unsafe extern "C"` function the
give_back emission drops all three qualifiers and the ABI, while the
reporting emission keeps them. -/
theorem c10_signature_qualifiers_witness :
    ((transform ⟨none, .always, true, .println, .info⟩ c10Fn).isConst = false ∧
      (transform ⟨none, .always, true, .println, .info⟩ c10Fn).isAsync = false ∧
      (transform ⟨none, .always, true, .println, .info⟩ c10Fn).isUnsafe = false ∧
      (transform ⟨none, .always, true, .println, .info⟩ c10Fn).abi = none ∧
      (transform ⟨none, .always, true, .println, .info⟩ c10Fn).vis = c10Fn.vis ∧
      (transform ⟨none, .always, true, .println, .info⟩ c10Fn).ident = c10Fn.sig.ident ∧
      (transform ⟨none, .always, true, .println, .info⟩ c10Fn).generics = c10Fn.sig.generics ∧
      (transform ⟨none, .always, true, .println, .info⟩ c10Fn).inputs = c10Fn.sig.inputs ∧
      (transform ⟨none, .always, true, .println, .info⟩ c10Fn).whereClause = c10Fn.sig.whereClause ∧
      (transform ⟨none, .always, true, .println, .info⟩ c10Fn).output =
        some (match c10Fn.sig.output with
          | none => "std::time::Duration"
          | some ty => "(" ++ ty ++ ", std::time::Duration)")) ∧
    (transform ⟨none, .always, false, .println, .info⟩ c10Fn).isConst = c10Fn.sig.isConst ∧
    (transform ⟨none, .always, false, .println, .info⟩ c10Fn).isAsync = c10Fn.sig.isAsync ∧
    (transform ⟨none, .always, false, .println, .info⟩ c10Fn).isUnsafe = c10Fn.sig.isUnsafe ∧
    (transform ⟨none, .always, false, .println, .info⟩ c10Fn).abi = c10Fn.sig.abi ∧
    (transform ⟨none, .always, false, .println, .info⟩ c10Fn).vis = c10Fn.vis ∧
    (transform ⟨none, .always, false, .println, .info⟩ c10Fn).ident = c10Fn.sig.ident ∧
    (transform ⟨none, .always, false, .println, .info⟩ c10Fn).generics = c10Fn.sig.generics ∧
    (transform ⟨none, .always, false, .println, .info⟩ c10Fn).inputs = c10Fn.sig.inputs ∧
    (transform ⟨none, .always, false, .println, .info⟩ c10Fn).whereClause = c10Fn.sig.whereClause ∧
    (transform ⟨none, .always, false, .println, .info⟩ c10Fn).output = c10Fn.sig.output :=
  ⟨(c10_signature_qualifiers ⟨none, .always, true, .println, .info⟩ c10Fn).1 rfl,
    (c10_signature_qualifiers ⟨none, .always, false, .println, .info⟩ c10Fn).2 rfl⟩

end FunTime
